import Mathlib

/-!
Verification of the domhome-cli / DomHome Zigbee command-translation layer.

Shallow embedding of:
  - src/zigbee/types/zigbee.types.ts   (data model)
  - src/zigbee/services/zigbee.service.ts  (ZigbeeService: device map, state cache, stop)
  - the ZigbeeDeviceService (command translator: setBrightness, setColorTemperature,
    setColor, turnOnLight, readState)
  - src/zigbee/deviceRegistry.ts and actions.ts (getOnOffEndpoint, sendOnOff)
  - src/zigbee/coordinator.ts (ZigbeeCoordinator.stop)

Numbers are modelled as rationals; JS `Math.round` is `jsRound` below.  Transport
round-trips are modelled by explicit oracle arguments (which low-level call fails /
what an attribute read returns); the list of low-level command invocations issued by
a translator operation is its return value.
-/

/-- JS `Math.round` for finite inputs: rounds half toward positive infinity. -/
def jsRound (q : ℚ) : ℤ := ⌊q + 1 / 2⌋

/-- Enum `ZigbeeDevicePowerState` from zigbee.types.ts. -/
inductive ZigbeeDevicePowerState
  | ON
  | OFF
  | TOGGLE
  deriving DecidableEq, Repr

/-- The `color` attribute value stored in the state cache (zigbee.types.ts,
`ZigbeeDeviceState.color`: optional x, y, hue, saturation). -/
structure ColorStateValue where
  x : Option ℚ := none
  y : Option ℚ := none
  hue : Option ℚ := none
  saturation : Option ℚ := none
  deriving DecidableEq, Repr

/-- Interface `ZigbeeDeviceState` from zigbee.types.ts: every attribute optional;
a `none` field models an absent key of the JS object. -/
structure ZigbeeDeviceState where
  state : Option ZigbeeDevicePowerState := none
  brightness : Option ℚ := none
  color_temp : Option ℚ := none
  color : Option ColorStateValue := none
  power : Option ℚ := none
  energy : Option ℚ := none
  voltage : Option ℚ := none
  current : Option ℚ := none
  deriving DecidableEq, Repr

/-- The attribute names of `ZigbeeDeviceState`. -/
inductive StateAttr
  | state
  | brightness
  | color_temp
  | color
  | power
  | energy
  | voltage
  | current
  deriving DecidableEq, Repr

/-- Untyped view of an attribute value (JS objects are string-keyed maps). -/
inductive StateAttrValue
  | powerState (s : ZigbeeDevicePowerState)
  | num (q : ℚ)
  | colorVal (c : ColorStateValue)
  deriving DecidableEq, Repr

/-- Key-indexed read of a `ZigbeeDeviceState` (the JS object view). -/
def ZigbeeDeviceState.getAttr (s : ZigbeeDeviceState) : StateAttr → Option StateAttrValue
  | .state => s.state.map .powerState
  | .brightness => s.brightness.map .num
  | .color_temp => s.color_temp.map .num
  | .color => s.color.map .colorVal
  | .power => s.power.map .num
  | .energy => s.energy.map .num
  | .voltage => s.voltage.map .num
  | .current => s.current.map .num

/-- JS object spread `{ ...old, ...p }` on device states: a key of `p` overrides,
keys absent from `p` are retained from `old` (zigbee.service.ts, updateDeviceState). -/
def mergeState (old p : ZigbeeDeviceState) : ZigbeeDeviceState where
  state := p.state <|> old.state
  brightness := p.brightness <|> old.brightness
  color_temp := p.color_temp <|> old.color_temp
  color := p.color <|> old.color
  power := p.power <|> old.power
  energy := p.energy <|> old.energy
  voltage := p.voltage <|> old.voltage
  current := p.current <|> old.current

/-- Enum `ZigbeeDeviceType` from zigbee.types.ts. -/
inductive ZigbeeDeviceType
  | LIGHT
  | SWITCH
  | PLUG
  | SENSOR
  | UNKNOWN
  deriving DecidableEq, Repr

/-- Interface `ZigbeeDevice` from zigbee.types.ts (`type` is a Lean keyword, renamed
`deviceType`; `Date` values are modelled as rational timestamps). -/
structure ZigbeeDevice where
  ieeeAddr : String
  networkAddress : ℤ := 0
  friendlyName : Option String := none
  manufacturerName : Option String := none
  modelId : Option String := none
  deviceType : ZigbeeDeviceType := .UNKNOWN
  powerSource : Option String := none
  interviewCompleted : Bool := false
  lastSeen : Option ℚ := none
  state : ZigbeeDeviceState := {}
  deriving DecidableEq, Repr

/-- A zigbee-herdsman endpoint: numeric ID plus input/output cluster ID lists. -/
structure Endpoint where
  ID : ℤ
  inputClusters : List ℤ := []
  outputClusters : List ℤ := []
  deriving DecidableEq, Repr

/-- A zigbee-herdsman `Device` as read by this repository: identity, metadata,
interview flag and endpoints. -/
structure HerdsmanDevice where
  ieeeAddr : String
  devType : String := "Router"
  modelID : Option String := none
  manufacturerName : Option String := none
  powerSource : Option String := none
  interviewCompleted : Bool := false
  lastSeen : Option ℚ := none
  endpoints : List Endpoint := []
  deriving DecidableEq, Repr

/-- Association-list lookup modelling `Map.get` (zigbee.service.ts `this.devices`). -/
def MapGet (m : List (String × α)) (k : String) : Option α :=
  (m.find? fun e => e.1 == k).map fun e => e.2

/-- Association-list update modelling `Map.set`: replace the first entry with this
key, or append when absent. -/
def MapSet (m : List (String × α)) (k : String) (v : α) : List (String × α) :=
  match m with
  | [] => [(k, v)]
  | e :: rest => if e.1 == k then (k, v) :: rest else e :: MapSet rest k v

/-- Domain events emitted through the EventEmitter2 bus that the claims mention
(`ZigbeeEvent.STATE_CHANGE` with payload `\x7b device, state \x7d`). -/
inductive EmittedEvent
  | stateChange (device : ZigbeeDevice) (state : ZigbeeDeviceState)
  deriving DecidableEq, Repr

/-- The mutable fields of `ZigbeeService` (zigbee.service.ts): the controller handle
(carrying the herdsman device store when present), the device map / state cache,
the permit-join flag and the started flag. -/
structure ZigbeeService where
  controller : Option (List HerdsmanDevice) := none
  devices : List (String × ZigbeeDevice) := []
  permitJoinEnabled : Bool := false
  isStarted : Bool := false
  deriving DecidableEq, Repr

/-- `ZigbeeService.isPermitJoinEnabled` (zigbee.service.ts line 165). -/
def ZigbeeService.isPermitJoinEnabled (svc : ZigbeeService) : Bool :=
  svc.permitJoinEnabled

/-- `ZigbeeService.getHerdsmanDevice`: `controller.getDeviceByIeeeAddr` when the
controller is present, `undefined` otherwise. -/
def ZigbeeService.getHerdsmanDevice (svc : ZigbeeService) (ieeeAddr : String) :
    Option HerdsmanDevice :=
  match svc.controller with
  | none => none
  | some ctrlDevices => ctrlDevices.find? fun d => d.ieeeAddr == ieeeAddr

/-- `ZigbeeService.updateDeviceState` (zigbee.service.ts lines 380-390): when the
identity is in the map, overlay the partial state, refresh `lastSeen` (to `now`) and
emit `STATE_CHANGE` carrying the device and its full merged state; otherwise do
nothing.  Returns the new service state plus the list of emitted events. -/
def ZigbeeService.updateDeviceState (svc : ZigbeeService) (ieeeAddr : String)
    (state : ZigbeeDeviceState) (now : ℚ) : ZigbeeService × List EmittedEvent :=
  match MapGet svc.devices ieeeAddr with
  | none => (svc, [])
  | some device =>
    let device2 : ZigbeeDevice :=
      { device with state := mergeState device.state state, lastSeen := some now }
    ({ svc with devices := MapSet svc.devices ieeeAddr device2 },
      [.stateChange device2 device2.state])

/-- `ZigbeeService.stop` (zigbee.service.ts lines 123-139): early return when there is
no controller or not started; otherwise `controller.stop()` is awaited (its failure,
modelled by `stopFails`, is logged and rethrown before any field is touched); on
success the started flag is cleared and the device map is cleared.  The
`permitJoinEnabled` field is not written by this method. -/
def ZigbeeService.stop (svc : ZigbeeService) (stopFails : Bool) :
    Except Unit ZigbeeService :=
  if svc.controller.isNone || !svc.isStarted then .ok svc
  else if stopFails then .error ()
  else .ok { svc with isStarted := false, devices := [] }

/-- The `color` argument of `setColor` / `LightControlOptions.color`
(zigbee.types.ts): optional hex string, RGB triple, hue and saturation. -/
structure RGBColor where
  r : ℚ
  g : ℚ
  b : ℚ
  deriving DecidableEq, Repr

/-- Optional color specification accepted by `setColor`. -/
structure ColorOptions where
  hex : Option String := none
  rgb : Option RGBColor := none
  hue : Option ℚ := none
  saturation : Option ℚ := none
  deriving DecidableEq, Repr

/-- Interface `LightControlOptions` from zigbee.types.ts. -/
structure LightControlOptions where
  state : Option ZigbeeDevicePowerState := none
  brightness : Option ℚ := none
  color_temp : Option ℚ := none
  transition : Option ℚ := none
  color : Option ColorOptions := none
  deriving DecidableEq, Repr

/-- Payload of one `sendCommand` invocation of the ZigbeeDeviceService.  The source
passes the RGB triple formatted as the string "r,g,b"; the triple is carried here
unformatted. -/
inductive CommandValue
  | powerState (s : ZigbeeDevicePowerState)
  | num (q : ℚ)
  | hexColor (hex : String)
  | rgbColor (r g b : ℚ)
  | hueSat (hue saturation : ℚ)
  deriving DecidableEq, Repr

/-- One low-level command invocation `sendCommand(ieeeAddr, command, value, …)` of
the ZigbeeDeviceService (the trailing option bag — transition — is not modelled). -/
structure Command where
  ieeeAddr : String
  command : String
  value : CommandValue
  deriving DecidableEq, Repr

/-- Native value computed by `ZigbeeDeviceService.setBrightness`:
`Math.round((brightness / 100) * 254)` then `Math.max(0, Math.min(254, …))`. -/
def setBrightnessNative (brightness : ℚ) : ℤ :=
  max 0 (min 254 (jsRound (brightness / 100 * 254)))

/-- `ZigbeeDeviceService.setBrightness`: issues one low-level "brightness" command
with the clamped native value. -/
def setBrightness (ieeeAddr : String) (brightness : ℚ) : List Command :=
  [⟨ieeeAddr, "brightness", .num ((setBrightnessNative brightness : ℤ) : ℚ)⟩]

/-- Native value computed by `ZigbeeDeviceService.setColorTemperature`:
`colorTemp > 500 ? Math.round(1000000 / colorTemp) : colorTemp`. -/
def setColorTemperatureNative (colorTemp : ℚ) : ℚ :=
  if colorTemp > 500 then ((jsRound (1000000 / colorTemp) : ℤ) : ℚ) else colorTemp

/-- `ZigbeeDeviceService.setColorTemperature`: issues one low-level "color_temp"
command with the mireds value. -/
def setColorTemperature (ieeeAddr : String) (colorTemp : ℚ) : List Command :=
  [⟨ieeeAddr, "color_temp", .num (setColorTemperatureNative colorTemp)⟩]

/-- JS truthiness of `color.hex` (a string is truthy iff nonempty). -/
def hexTruthy : Option String → Bool
  | some s => s != ""
  | none => false

/-- `ZigbeeDeviceService.setColor`: `if (!color) return;` then
`if (color.hex) … else if (color.rgb) … else if (color.hue !== undefined &&
color.saturation !== undefined) …`; at most one "color" command is issued. -/
def setColor (ieeeAddr : String) (color : Option ColorOptions) : List Command :=
  match color with
  | none => []
  | some c =>
    if hexTruthy c.hex then [⟨ieeeAddr, "color", .hexColor (c.hex.getD "")⟩]
    else
      match c.rgb with
      | some rgb => [⟨ieeeAddr, "color", .rgbColor rgb.r rgb.g rgb.b⟩]
      | none =>
        match c.hue, c.saturation with
        | some hue, some sat => [⟨ieeeAddr, "color", .hueSat hue sat⟩]
        | _, _ => []

/-- `ZigbeeDeviceService.turnOnLight`: the `state = ON` command first, then — each
only when the field is present in `options` — the brightness, color-temperature and
color sub-calls, in that order. -/
def turnOnLight (ieeeAddr : String) (options : Option LightControlOptions) :
    List Command :=
  ⟨ieeeAddr, "state", .powerState .ON⟩ ::
    (match options with
     | none => []
     | some o =>
       (match o.brightness with
        | some b => setBrightness ieeeAddr b
        | none => [])
       ++ (match o.color_temp with
           | some ct => setColorTemperature ieeeAddr ct
           | none => [])
       ++ (match o.color with
           | some c => setColor ieeeAddr (some c)
           | none => []))

/-- Sequential await-each execution of the sub-commands of a compound operation:
`fails` tells which low-level command invocation throws.  Returns the commands that
were issued before the first failure and whether the whole call succeeded.  Nothing
is ever rolled back or re-issued. -/
def runCommands (fails : Command → Bool) : List Command → List Command × Bool
  | [] => ([], true)
  | c :: rest =>
    if fails c then ([], false)
    else
      let r := runCommands fails rest
      (c :: r.1, r.2)

/-- ZCL On/Off cluster ID (deviceRegistry.ts `CLUSTER_ON_OFF = 6`). -/
def CLUSTER_ON_OFF : ℤ := 6

/-- `DeviceRegistry.getOnOffEndpoint` endpoint selection: prefer an endpoint whose
input clusters contain 6, fall back to one whose output clusters do. -/
def getOnOffEndpoint (device : HerdsmanDevice) : Option Endpoint :=
  match device.endpoints.find? (fun e => e.inputClusters.contains CLUSTER_ON_OFF) with
  | some ep => some ep
  | none => device.endpoints.find? fun e => e.outputClusters.contains CLUSTER_ON_OFF

/-- `OnOffAction` from actions.ts. -/
inductive OnOffAction
  | on
  | off
  | toggle
  deriving DecidableEq, Repr

/-- Errors thrown by the registry/actions layer (errors.ts): `DeviceNotFoundError`
and `UnsupportedActionError`.  No other local error kind exists in the source. -/
inductive ActionError
  | deviceNotFound (identifier : String)
  | unsupportedAction (action : OnOffAction) (deviceName : String)
  deriving DecidableEq, Repr

/-- The one transport call made by `sendOnOff`:
`endpoint.command("genOnOff", action, \x7b\x7d)`. -/
structure OnOffCommand where
  ieeeAddr : String
  endpointID : ℤ
  cluster : String
  action : OnOffAction
  deriving DecidableEq, Repr

/-- `sendOnOff` from actions.ts, inlining `DeviceRegistry.getHerdsmanDevice`
(controller lookup by IEEE address) and `getOnOffEndpoint`: looks the device up,
selects an On/Off endpoint, and issues the genOnOff command.  The returned `ok`
value is the transport call that was made. -/
def sendOnOff (ctrlDevices : List HerdsmanDevice) (ieeeAddr : String)
    (action : OnOffAction) : Except ActionError OnOffCommand :=
  match ctrlDevices.find? (fun d => d.ieeeAddr == ieeeAddr) with
  | none => .error (.deviceNotFound ieeeAddr)
  | some device =>
    match getOnOffEndpoint device with
    | none => .error (.unsupportedAction action ieeeAddr)
    | some ep => .ok ⟨ieeeAddr, ep.ID, "genOnOff", action⟩

/-- Per-cluster read results for one `readState` call: `some v` when the awaited
`endpoint.read` succeeded with that raw attribute value, `none` when it threw
(cluster unsupported).  The raw `onOff` value is kept as its truthiness. -/
structure ReadResults where
  onOff : Option Bool := none
  currentLevel : Option ℚ := none
  colorTemperature : Option ℚ := none
  deriving DecidableEq, Repr

/-- Local errors of the ZigbeeDeviceService read/command paths. -/
inductive DeviceServiceError
  | deviceNotFound (ieeeAddr : String)
  | endpointNotFound (ieeeAddr : String)
  deriving DecidableEq, Repr

/-- Endpoint selection of the ZigbeeDeviceService:
`herdsmanDevice.getEndpoint(1) || herdsmanDevice.endpoints[0]`. -/
def getEndpointForCommand (device : HerdsmanDevice) : Option Endpoint :=
  match device.endpoints.find? (fun e => e.ID == 1) with
  | some ep => some ep
  | none => device.endpoints.head?

/-- `ZigbeeDeviceService.readState`: device and endpoint lookups fail fast; the three
attribute reads each set their field only on success (a failure is swallowed by its
own try/catch and the attribute stays absent); the partial result is merged into the
state cache via `updateDeviceState` before being returned. -/
def readState (svc : ZigbeeService) (ieeeAddr : String) (reads : ReadResults)
    (now : ℚ) :
    Except DeviceServiceError (ZigbeeDeviceState × ZigbeeService × List EmittedEvent) :=
  match svc.getHerdsmanDevice ieeeAddr with
  | none => .error (.deviceNotFound ieeeAddr)
  | some herdsmanDevice =>
    match getEndpointForCommand herdsmanDevice with
    | none => .error (.endpointNotFound ieeeAddr)
    | some _ep =>
      let st : ZigbeeDeviceState :=
        { state := reads.onOff.map fun b => if b then .ON else .OFF
          brightness := reads.currentLevel
          color_temp := reads.colorTemperature }
      let r := svc.updateDeviceState ieeeAddr st now
      .ok (st, r.1, r.2)

/-- The mutable fields of `ZigbeeCoordinator` (coordinator.ts): whether the
controller handle is set and the started flag. -/
structure ZigbeeCoordinator where
  controller : Bool
  started : Bool
  deriving DecidableEq, Repr

/-- `ZigbeeCoordinator.isRunning` (coordinator.ts line 200). -/
def ZigbeeCoordinator.isRunning (c : ZigbeeCoordinator) : Bool :=
  c.started

/-- `ZigbeeCoordinator.stop` (coordinator.ts lines 159-175): early return when not
started or no controller; otherwise `controller.stop()` is awaited inside
try/catch/finally — a failure (`stopFails`) is only logged, and the finally block
clears both the started flag and the controller handle in every case.  The method
never rethrows, so the result is always `ok`. -/
def ZigbeeCoordinator.stop (c : ZigbeeCoordinator) (stopFails : Bool) :
    Except Unit ZigbeeCoordinator :=
  if !c.started || !c.controller then .ok c
  else
    match (if stopFails then Except.error () else Except.ok ()) with
    | .error _e => .ok { controller := false, started := false }
    | .ok _ => .ok { controller := false, started := false }

/-- Helper: evaluation rule for `jsRound` from the floor characterisation. -/
theorem jsRound_eq (q : ℚ) (n : ℤ) (h1 : (n : ℚ) ≤ q + 1 / 2) (h2 : q + 1 / 2 < n + 1) :
    jsRound q = n := by
  unfold jsRound
  exact Int.floor_eq_iff.mpr ⟨h1, h2⟩

/-- Helper: overlaying the same update twice equals overlaying it once. -/
theorem overlay_overlay (p s : Option α) : (p <|> (p <|> s)) = (p <|> s) := by
  cases p <;> rfl

/-- Spec-side color-temperature formula, written from the spec sentence: inputs
v ≤ 500 are native mireds and pass unchanged, inputs v > 500 are Kelvin converted
via round(1000000 / v). -/
def specColorTempNative (v : ℚ) : ℚ :=
  if v ≤ 500 then v else ((jsRound (1000000 / v) : ℤ) : ℚ)

/-- Claim C1: for every input v to setColorTemperature, the native value issued in
the single low-level color_temp command equals v unchanged when v ≤ 500 and
round(1000000 / v) when v > 500; concretely v = 4000 and v = 250 both yield 250. -/
theorem setColorTemperature_dual_unit (ieeeAddr : String) (v : ℚ) :
    setColorTemperature ieeeAddr v =
      [⟨ieeeAddr, "color_temp", .num (specColorTempNative v)⟩]
    ∧ specColorTempNative 4000 = 250 ∧ specColorTempNative 250 = 250 := by
  refine ⟨?_, ?_, ?_⟩
  · have h : setColorTemperatureNative v = specColorTempNative v := by
      unfold setColorTemperatureNative specColorTempNative
      by_cases h : v ≤ 500
      · rw [if_neg (not_lt.mpr h), if_pos h]
      · rw [if_pos (lt_of_not_le h), if_neg h]
    simp [setColorTemperature, h]
  · have h : jsRound (1000000 / 4000 : ℚ) = 250 := jsRound_eq _ _ (by norm_num) (by norm_num)
    unfold specColorTempNative
    rw [if_neg (by norm_num), h]
    norm_num
  · unfold specColorTempNative
    rw [if_pos (by norm_num)]

/-- Spec-side brightness formula, written from the spec sentence:
clamp(round(p / 100 * 254), 0, 254). -/
def specBrightnessNative (p : ℚ) : ℤ :=
  max 0 (min (jsRound (p / 100 * 254)) 254)

/-- Claim C2: for every numeric input p, setBrightness issues exactly one low-level
brightness command whose native value is clamp(round(p/100*254), 0, 254); the
out-of-domain inputs -10 and 150 are clamped to 0 and 254 (never rejected — the
operation is total and always issues the command). -/
theorem setBrightness_clamp (ieeeAddr : String) (p : ℚ) :
    setBrightness ieeeAddr p =
      [⟨ieeeAddr, "brightness", .num ((specBrightnessNative p : ℤ) : ℚ)⟩]
    ∧ specBrightnessNative (-10) = 0 ∧ specBrightnessNative 150 = 254 := by
  refine ⟨?_, ?_, ?_⟩
  · have h : setBrightnessNative p = specBrightnessNative p := by
      unfold setBrightnessNative specBrightnessNative
      rw [min_comm]
    simp [setBrightness, h]
  · have h : jsRound (-10 / 100 * 254 : ℚ) = -25 := jsRound_eq _ _ (by norm_num) (by norm_num)
    unfold specBrightnessNative
    rw [h]
    decide
  · have h : jsRound (150 / 100 * 254 : ℚ) = 381 := jsRound_eq _ _ (by norm_num) (by norm_num)
    unfold specBrightnessNative
    rw [h]
    decide

/-- Claim C3: setColor issues at most one low-level color command; the forwarded
representation follows the precedence hex > RGB > hue/saturation (with presence
tested exactly as the source tests it: a hex string counts when truthy, i.e.
nonempty); with no representation present the call issues no command — and raises
no error, `setColor` being total. -/
theorem setColor_precedence (ieeeAddr : String) (c : ColorOptions) :
    (setColor ieeeAddr (some c)).length ≤ 1
    ∧ setColor ieeeAddr none = []
    ∧ (∀ s, c.hex = some s → s ≠ "" →
        setColor ieeeAddr (some c) = [⟨ieeeAddr, "color", .hexColor s⟩])
    ∧ (hexTruthy c.hex = false → ∀ rgb, c.rgb = some rgb →
        setColor ieeeAddr (some c) = [⟨ieeeAddr, "color", .rgbColor rgb.r rgb.g rgb.b⟩])
    ∧ (hexTruthy c.hex = false → c.rgb = none → ∀ hu sa, c.hue = some hu →
        c.saturation = some sa →
        setColor ieeeAddr (some c) = [⟨ieeeAddr, "color", .hueSat hu sa⟩])
    ∧ (hexTruthy c.hex = false → c.rgb = none → (c.hue = none ∨ c.saturation = none) →
        setColor ieeeAddr (some c) = []) := by
  refine ⟨?_, rfl, ?_, ?_, ?_, ?_⟩
  · simp only [setColor]
    split
    · simp
    · split
      · simp
      · split
        · simp
        · simp
  · intro s hs hne
    simp [setColor, hs, hexTruthy, bne_iff_ne, hne]
  · intro hhex rgb hrgb
    simp [setColor, hhex, hrgb]
  · intro hhex hrgb hu sa hhu hsa
    simp [setColor, hhex, hrgb, hhu, hsa]
  · intro hhex hrgb hdisj
    rcases hdisj with h | h
    · simp [setColor, hhex, hrgb, h]
    · cases hhu : c.hue <;> simp [setColor, hhex, hrgb, h, hhu]

/-- Witness for C3 at the spec's own example: both hex and rgb present, the hex
payload is forwarded and the RGB payload never is. -/
theorem setColor_precedence_witness :
    setColor "0x00158d0001234567"
        (some { hex := some "#FF5500", rgb := some ⟨1, 2, 3⟩ }) =
      [⟨"0x00158d0001234567", "color", .hexColor "#FF5500"⟩] :=
  (setColor_precedence "0x00158d0001234567"
      { hex := some "#FF5500", rgb := some ⟨1, 2, 3⟩ }).2.2.1 "#FF5500" rfl (by decide)

/-- A device whose interview never completed but which exposes the On/Off input
cluster on endpoint 1. -/
def unInterviewedDevice : HerdsmanDevice :=
  { ieeeAddr := "0x00124b0001020304"
    interviewCompleted := false
    endpoints := [{ ID := 1, inputClusters := [6] }] }

/-- Claim C4 counterexample: dispatching the On intent on a device whose interview
is incomplete does NOT fail — the low-level genOnOff transport command is issued.
No CapabilityUnknown error kind even exists in the source (errors.ts defines only
CoordinatorError, DeviceNotFoundError and UnsupportedActionError), and sendOnOff
never reads the interview flag. -/
theorem sendOnOff_incomplete_interview_not_rejected :
    unInterviewedDevice.interviewCompleted = false
    ∧ sendOnOff [unInterviewedDevice] "0x00124b0001020304" .on =
        .ok ⟨"0x00124b0001020304", 1, "genOnOff", .on⟩ := by
  constructor
  · rfl
  · rfl

/-- Claim C4 (amended): intent dispatch does not consult the interview-completion
flag at all: for every directory whose lookup of the address yields a device with an
On/Off-capable endpoint — whether or not its interview completed — sendOnOff issues
the genOnOff transport command; the only local failures are DeviceNotFound (address
absent) and UnsupportedAction (no On/Off endpoint). -/
theorem sendOnOff_ignores_interview (ctrlDevices : List HerdsmanDevice)
    (ieeeAddr : String) (action : OnOffAction) (device : HerdsmanDevice) (ep : Endpoint)
    (hfind : ctrlDevices.find? (fun d => d.ieeeAddr == ieeeAddr) = some device)
    (hep : getOnOffEndpoint device = some ep) :
    sendOnOff ctrlDevices ieeeAddr action = .ok ⟨ieeeAddr, ep.ID, "genOnOff", action⟩ := by
  simp [sendOnOff, hfind, hep]

/-- Witness for the amended C4, at a concrete incomplete-interview device. -/
theorem sendOnOff_ignores_interview_witness :
    sendOnOff [unInterviewedDevice] "0x00124b0001020304" .off =
      .ok ⟨"0x00124b0001020304", 1, "genOnOff", .off⟩ :=
  sendOnOff_ignores_interview [unInterviewedDevice] "0x00124b0001020304" .off
    unInterviewedDevice { ID := 1, inputClusters := [6] } (by rfl) (by rfl)

/-- Example cached device: prior state \x7b state: ON \x7d. -/
def exampleDevice : ZigbeeDevice :=
  { ieeeAddr := "0x00158d0001234567"
    interviewCompleted := true
    state := { state := some .ON } }

/-- Example herdsman record for the same device, endpoint 1 with On/Off, level and
color-control input clusters. -/
def exampleHerdsman : HerdsmanDevice :=
  { ieeeAddr := "0x00158d0001234567"
    interviewCompleted := true
    endpoints := [{ ID := 1, inputClusters := [6, 8, 768] }] }

/-- Example running service holding the device in both the controller store and the
device map. -/
def exampleService : ZigbeeService :=
  { controller := some [exampleHerdsman]
    devices := [("0x00158d0001234567", exampleDevice)]
    isStarted := true }

/-- Claim C5: the state-cache merge is an attribute-wise overlay that is idempotent
(merging the same update twice equals merging it once) and loses no attribute (any
attribute absent from the update is retained from the prior state), and the
STATE_CHANGE event emitted by updateDeviceState carries the full merged state, not
the delta. -/
theorem mergeState_idempotent_full_event (S P : ZigbeeDeviceState)
    (svc : ZigbeeService) (ieeeAddr : String) (d : ZigbeeDevice) (now : ℚ)
    (hfind : MapGet svc.devices ieeeAddr = some d) :
    mergeState (mergeState S P) P = mergeState S P
    ∧ (∀ a : StateAttr, P.getAttr a = none → (mergeState S P).getAttr a = S.getAttr a)
    ∧ (svc.updateDeviceState ieeeAddr P now).2 =
        [.stateChange { d with state := mergeState d.state P, lastSeen := some now }
            (mergeState d.state P)] := by
  refine ⟨?_, ?_, ?_⟩
  · obtain ⟨s1, s2, s3, s4, s5, s6, s7, s8⟩ := S
    obtain ⟨p1, p2, p3, p4, p5, p6, p7, p8⟩ := P
    simp only [mergeState, ZigbeeDeviceState.mk.injEq]
    exact ⟨overlay_overlay p1 s1, overlay_overlay p2 s2, overlay_overlay p3 s3,
      overlay_overlay p4 s4, overlay_overlay p5 s5, overlay_overlay p6 s6,
      overlay_overlay p7 s7, overlay_overlay p8 s8⟩
  · intro a ha
    cases a <;>
      simp only [ZigbeeDeviceState.getAttr, Option.map_eq_none'] at ha ⊢ <;>
      simp [mergeState, ha]
  · simp [ZigbeeService.updateDeviceState, hfind]

/-- Witness for C5 at the spec's example: merging \x7b brightness: 80 \x7d into
\x7b state: ON \x7d is idempotent, yields \x7b state: ON, brightness: 80 \x7d, and the
emitted event carries that full merged state. -/
theorem mergeState_idempotent_full_event_witness :
    mergeState (mergeState { state := some .ON } { brightness := some 80 })
        { brightness := some 80 } =
      mergeState { state := some .ON } { brightness := some 80 }
    ∧ mergeState { state := some .ON } { brightness := some 80 } =
        { state := some .ON, brightness := some 80 }
    ∧ (exampleService.updateDeviceState "0x00158d0001234567" { brightness := some 80 } 7).2 =
        [.stateChange
          { exampleDevice with
              state := mergeState exampleDevice.state { brightness := some 80 }
              lastSeen := some 7 }
          (mergeState exampleDevice.state { brightness := some 80 })] :=
  have h := mergeState_idempotent_full_event { state := some .ON } { brightness := some 80 }
    exampleService "0x00158d0001234567" exampleDevice 7 (by rfl)
  ⟨h.1, by rfl, h.2.2⟩

/-- Helper: the issued trace of a sequential execution is an initial segment of the
planned command list — nothing is reordered, dropped in the middle, or undone. -/
theorem runCommands_issued_initial (fails : Command → Bool) (cmds : List Command) :
    ∃ rest, (runCommands fails cmds).1 ++ rest = cmds := by
  induction cmds with
  | nil => exact ⟨[], rfl⟩
  | cons c cs ih =>
    by_cases h : fails c
    · exact ⟨c :: cs, by simp [runCommands, h]⟩
    · obtain ⟨rest, hrest⟩ := ih
      exact ⟨rest, by simp [runCommands, h, hrest]⟩

/-- Helper: when the whole sequential execution succeeds, every planned command was
issued. -/
theorem runCommands_success_all (fails : Command → Bool) (cmds : List Command) :
    (runCommands fails cmds).2 = true → (runCommands fails cmds).1 = cmds := by
  induction cmds with
  | nil => intro _; rfl
  | cons c cs ih =>
    by_cases h : fails c
    · simp [runCommands, h]
    · simp only [runCommands, h, Bool.false_eq_true, if_false]
      intro h2
      simp [ih h2]

/-- Claim C6: turnOnLight issues the On state command first, then — each only when
the corresponding field is present in the options — the brightness, then the
color-temperature, then the color sub-commands, strictly in that order; under any
failure pattern the issued trace is an initial segment of that list (earlier
sub-calls are never undone: no rollback commands exist), and a fully successful run
issues exactly the list. -/
theorem turnOnLight_order_no_rollback (ieeeAddr : String) (o : LightControlOptions)
    (fails : Command → Bool) :
    turnOnLight ieeeAddr (some o) =
      ⟨ieeeAddr, "state", .powerState .ON⟩ ::
        ((o.brightness.elim [] fun b => setBrightness ieeeAddr b)
          ++ (o.color_temp.elim [] fun ct => setColorTemperature ieeeAddr ct)
          ++ (o.color.elim [] fun cl => setColor ieeeAddr (some cl)))
    ∧ (∃ rest, (runCommands fails (turnOnLight ieeeAddr (some o))).1 ++ rest =
        turnOnLight ieeeAddr (some o))
    ∧ ((runCommands fails (turnOnLight ieeeAddr (some o))).2 = true →
        (runCommands fails (turnOnLight ieeeAddr (some o))).1 =
          turnOnLight ieeeAddr (some o)) := by
  refine ⟨?_, runCommands_issued_initial _ _, runCommands_success_all _ _⟩
  cases hb : o.brightness <;> cases hct : o.color_temp <;> cases hc : o.color <;>
    simp [turnOnLight, hb, hct, hc]

/-- Witness for C6: with brightness present and no failure, the full planned trace
(On first, then brightness) is issued. -/
theorem turnOnLight_order_no_rollback_witness :
    (runCommands (fun _ => false)
        (turnOnLight "0x00158d0001234567" (some { brightness := some 80 }))).1 =
      turnOnLight "0x00158d0001234567" (some { brightness := some 80 }) :=
  (turnOnLight_order_no_rollback "0x00158d0001234567" { brightness := some 80 }
      (fun _ => false)).2.2 (by rfl)

/-- Helper: reading back the key just written into the association-list map. -/
theorem MapGet_MapSet_self (m : List (String × α)) (k : String) (v : α) :
    MapGet (MapSet m k v) k = some v := by
  induction m with
  | nil => simp [MapGet, MapSet]
  | cons e rest ih =>
    by_cases h : e.1 == k
    · simp [MapGet, MapSet, h]
    · simpa [MapGet, MapSet, List.find?, h] using ih

/-- Claim C7: readState queries the three clusters independently; a failed query
(cluster unsupported) only omits its attribute — the call still returns ok — and the
partial result is merged into the state cache (via updateDeviceState) before the
state is returned.  The returned state carries exactly the attributes whose reads
succeeded; all other attributes are absent. -/
theorem readState_swallows_and_caches (svc : ZigbeeService) (ieeeAddr : String)
    (reads : ReadResults) (now : ℚ) (hd : HerdsmanDevice) (ep : Endpoint)
    (d : ZigbeeDevice)
    (hdev : svc.getHerdsmanDevice ieeeAddr = some hd)
    (hep : getEndpointForCommand hd = some ep)
    (hdir : MapGet svc.devices ieeeAddr = some d) :
    ∃ st svc2,
      readState svc ieeeAddr reads now =
        .ok (st, svc2,
          [.stateChange { d with state := mergeState d.state st, lastSeen := some now }
            (mergeState d.state st)])
      ∧ st.state = reads.onOff.map (fun b => if b then .ON else .OFF)
      ∧ st.brightness = reads.currentLevel
      ∧ st.color_temp = reads.colorTemperature
      ∧ st.color = none ∧ st.power = none ∧ st.energy = none
      ∧ st.voltage = none ∧ st.current = none
      ∧ MapGet svc2.devices ieeeAddr =
          some { d with state := mergeState d.state st, lastSeen := some now } := by
  refine ⟨{ state := reads.onOff.map fun b => if b then .ON else .OFF
            brightness := reads.currentLevel
            color_temp := reads.colorTemperature },
    { svc with
        devices := MapSet svc.devices ieeeAddr
          { d with
              state := mergeState d.state
                { state := reads.onOff.map fun b => if b then .ON else .OFF
                  brightness := reads.currentLevel
                  color_temp := reads.colorTemperature }
              lastSeen := some now } },
    ?_, rfl, rfl, rfl, rfl, rfl, rfl, rfl, rfl, ?_⟩
  · simp [readState, hdev, hep, ZigbeeService.updateDeviceState, hdir]
  · exact MapGet_MapSet_self _ _ _

/-- Witness for C7 at the spec's example: only the On/Off cluster responds; the
result has state only, no brightness or color_temp key, no error, and the merged
partial result lands in the cache. -/
theorem readState_swallows_and_caches_witness :
    ∃ st svc2,
      readState exampleService "0x00158d0001234567" { onOff := some true } 9 =
        .ok (st, svc2,
          [.stateChange
            { exampleDevice with
                state := mergeState exampleDevice.state st, lastSeen := some 9 }
            (mergeState exampleDevice.state st)])
      ∧ st.state = (some true).map (fun b => if b then .ON else .OFF)
      ∧ st.brightness = none
      ∧ st.color_temp = none
      ∧ st.color = none ∧ st.power = none ∧ st.energy = none
      ∧ st.voltage = none ∧ st.current = none
      ∧ MapGet svc2.devices "0x00158d0001234567" =
          some { exampleDevice with
              state := mergeState exampleDevice.state st, lastSeen := some 9 } :=
  readState_swallows_and_caches exampleService "0x00158d0001234567"
    { onOff := some true } 9 exampleHerdsman { ID := 1, inputClusters := [6, 8, 768] }
    exampleDevice (by rfl) (by rfl) (by rfl)

/-- A started service with the pairing window flag enabled. -/
def startedService : ZigbeeService :=
  { controller := some []
    devices := [("0x00158d0001234567", exampleDevice)]
    permitJoinEnabled := true
    isStarted := true }

/-- The state produced by a successful stop of `startedService`. -/
def stoppedService : ZigbeeService :=
  { startedService with isStarted := false, devices := [] }

/-- Claim C8 counterexample: after a successful stop() the device map is cleared,
but the pairing-window flag still reads true — `stop` never writes
`permitJoinEnabled`, so it is not reset to disabled. -/
theorem stop_keeps_permitJoin_flag :
    startedService.stop false = .ok stoppedService
    ∧ stoppedService.isPermitJoinEnabled = true
    ∧ stoppedService.devices = [] := by
  refine ⟨rfl, rfl, rfl⟩

/-- Claim C8 (amended): a successful stop() from the started state clears the Device
Directory and State Cache entirely (the device map, which carries the cached states,
becomes empty) and clears the started flag, but leaves the pairing-window-enabled
flag unchanged rather than resetting it to disabled. -/
theorem ZigbeeService_stop_clears_devices (svc : ZigbeeService)
    (ctrl : List HerdsmanDevice) (hc : svc.controller = some ctrl)
    (hs : svc.isStarted = true) :
    svc.stop false = .ok { svc with isStarted := false, devices := [] }
    ∧ ZigbeeService.isPermitJoinEnabled { svc with isStarted := false, devices := [] }
        = svc.isPermitJoinEnabled := by
  constructor
  · simp [ZigbeeService.stop, hc, hs]
  · rfl

/-- Witness for the amended C8 at the concrete started service. -/
theorem ZigbeeService_stop_clears_devices_witness :
    startedService.stop false =
      .ok { startedService with isStarted := false, devices := [] }
    ∧ ZigbeeService.isPermitJoinEnabled
        { startedService with isStarted := false, devices := [] }
        = startedService.isPermitJoinEnabled :=
  ZigbeeService_stop_clears_devices startedService [] (by rfl) (by rfl)

/-- A service that knows no devices. -/
def emptyService : ZigbeeService :=
  { controller := some [], isStarted := true }

/-- Claim C9: updateDeviceState on an identity absent from the device map is a
silent no-op — the service state is unchanged, no event is emitted, and no error is
raised (the operation is total). -/
theorem updateDeviceState_unknown_noop (svc : ZigbeeService) (ieeeAddr : String)
    (p : ZigbeeDeviceState) (now : ℚ)
    (h : MapGet svc.devices ieeeAddr = none) :
    svc.updateDeviceState ieeeAddr p now = (svc, []) := by
  simp [ZigbeeService.updateDeviceState, h]

/-- Witness for C9 at a concrete unknown identity. -/
theorem updateDeviceState_unknown_noop_witness :
    emptyService.updateDeviceState "0xdeadbeef00000000" { brightness := some 10 } 3 =
      (emptyService, []) :=
  updateDeviceState_unknown_noop emptyService "0xdeadbeef00000000"
    { brightness := some 10 } 3 (by rfl)

/-- Claim C10: ZigbeeCoordinator.stop never propagates the underlying transport
stop failure: it resolves ok in every state and for every failure outcome, and
whenever the transport stop call is actually made (started with a controller) the
coordinator ends not-started with the controller handle cleared — even when the
call fails — so isRunning reads false afterwards. -/
theorem ZigbeeCoordinator_stop_swallows (c : ZigbeeCoordinator) (stopFails : Bool) :
    (∃ c2, c.stop stopFails = .ok c2)
    ∧ (c.started = true → c.controller = true →
        c.stop stopFails = .ok { controller := false, started := false })
    ∧ ZigbeeCoordinator.isRunning { controller := false, started := false } = false := by
  refine ⟨?_, ?_, rfl⟩
  · unfold ZigbeeCoordinator.stop
    by_cases hs : c.started <;> by_cases hc : c.controller <;>
      cases stopFails <;> simp [hs, hc]
  · intro hs hc
    cases stopFails <;> simp [ZigbeeCoordinator.stop, hs, hc]

/-- Witness for C10: a running coordinator whose transport stop call fails still
resolves ok and ends not-started with the handle cleared. -/
theorem ZigbeeCoordinator_stop_swallows_witness :
    ZigbeeCoordinator.stop { controller := true, started := true } true =
      .ok { controller := false, started := false } :=
  (ZigbeeCoordinator_stop_swallows { controller := true, started := true } true).2.1
    rfl rfl
